import Mathlib

/-!
Shallow embedding of the metrics library (`src/metrics_library.cpp`,
`include/metrics_library.h`): Gauge and Counter metrics, the thread-safe
handoff queue, the asynchronous writer's background loop, and the
collector.  Stateful C++ objects become Lean structures with explicit
state passing; the background thread's loop becomes a fuel-indexed
function whose `none` result means the loop has not exited (it is still
running or blocked); the destructor's signalling (clearing the running
flag and stopping the queue) becomes an explicit state transformer.
-/

/-- A metric snapshot: the ordered `(name, value)` pairs handed from the
collector to the writer (`std::vector<std::pair<std::string, std::string>>`). -/
abbrev Snap := List (String × String)

/-- Renders `n` hundredths as a fixed-point decimal with two fractional
digits. -/
def fmt2Int (n : Int) : String :=
  let sign := if n < 0 then "-" else ""
  let a := n.natAbs
  let ip := a / 100
  let fp := a % 100
  sign ++ toString ip ++ "." ++ (if fp < 10 then "0" else "") ++ toString fp

/-- Fixed-point rendering with exactly two fractional digits, the model of
streaming a value with `std::fixed << std::setprecision(2)`. -/
def fmt2 (q : ℚ) : String := fmt2Int (round (q * 100))

/-- `Gauge`: name plus a real-valued reading (`double value_`), modelled
exactly over ℚ. -/
structure Gauge where
  name_ : String
  value_ : ℚ
deriving DecidableEq, Repr

/-- `Gauge::Gauge(name)`: initial value 0.0. -/
def Gauge.mkNamed (name : String) : Gauge := ⟨name, 0⟩

/-- `Gauge::update`: replaces the stored value. -/
def Gauge.update (g : Gauge) (value : ℚ) : Gauge := { g with value_ := value }

/-- `Gauge::getName`. -/
def Gauge.getName (g : Gauge) : String := g.name_

/-- `Gauge::getValueAsString`: fixed-point, two fractional digits. -/
def Gauge.getValueAsString (g : Gauge) : String := fmt2 g.value_

/-- `Gauge::reset`: back to 0.0. -/
def Gauge.reset (g : Gauge) : Gauge := { g with value_ := 0 }

/-- Reduction of an integer to the 32-bit two's-complement value range
`[-2^31, 2^31)`, the behaviour of the machine addition carrying the C++
`int` accumulator past its bounds. -/
def wrap32 (n : Int) : Int := (n + 2147483648) % 4294967296 - 2147483648

/-- The 32-bit signed value range of the C++ `int` accumulator. -/
abbrev inInt32 (n : Int) : Prop := -2147483648 ≤ n ∧ n ≤ 2147483647

/-- `Counter`: name plus the 32-bit integer accumulator (`int value_`);
the stored value is kept inside the `int` range by the wrapping
increment. -/
structure Counter where
  name_ : String
  value_ : Int
deriving DecidableEq, Repr

/-- `Counter::Counter(name)`: initial value 0. -/
def Counter.mkNamed (name : String) : Counter := ⟨name, 0⟩

/-- `Counter::increment(value = 1)`: `value_ += value` on a C++ `int` —
the delta is added and the 32-bit accumulator wraps on overflow
(two's-complement reduction of the mathematical sum). -/
def Counter.increment (c : Counter) (value : Int := 1) : Counter :=
  { c with value_ := wrap32 (c.value_ + value) }

/-- `Counter::getName`. -/
def Counter.getName (c : Counter) : String := c.name_

/-- `Counter::getValueAsString`: `std::to_string` of the stored integer. -/
def Counter.getValueAsString (c : Counter) : String := toString c.value_

/-- `Counter::reset`: back to 0. -/
def Counter.reset (c : Counter) : Counter := { c with value_ := 0 }

/-- `ThreadSafeQueue` state: the pending snapshots (front of the
`std::queue` is the list head) and the `stopped_` flag. -/
structure TSQueue where
  items : List Snap
  stopped : Bool
deriving DecidableEq, Repr

/-- `ThreadSafeQueue::push`: appends to the tail (no check of the stopped
flag in the source). -/
def TSQueue.push (q : TSQueue) (data : Snap) : TSQueue :=
  { q with items := q.items ++ [data] }

/-- `ThreadSafeQueue::tryPop`: removes and returns the head if present,
otherwise reports failure; never blocks. -/
def TSQueue.tryPop (q : TSQueue) : Option Snap × TSQueue :=
  match q.items with
  | [] => (none, q)
  | h :: t => (some h, { q with items := t })

/-- `ThreadSafeQueue::waitAndPop`: the condition variable waits for
`!queue_.empty() || stopped_`; the outer `none` models the call never
returning (the wait predicate stays false with no interference).  Once
awake: if the queue is empty and stopped, return with no element
delivered (`some (none, q)`); otherwise pop the head. -/
def TSQueue.waitAndPop (q : TSQueue) : Option (Option Snap × TSQueue) :=
  if q.items = [] ∧ q.stopped = false then none
  else if q.items = [] ∧ q.stopped = true then some (none, q)
  else match q.items with
    | [] => none
    | h :: t => some (some h, { q with items := t })

/-- `ThreadSafeQueue::stop`: sets the stopped flag (and wakes waiters). -/
def TSQueue.stop (q : TSQueue) : TSQueue := { q with stopped := true }

/-- Push a whole list of snapshots in order. -/
def TSQueue.pushAll (q : TSQueue) (L : List Snap) : TSQueue :=
  L.foldl TSQueue.push q

/-- Repeatedly `tryPop`, collecting the successfully popped snapshots, for
at most `fuel` pops. -/
def TSQueue.drainFuel : Nat → TSQueue → List Snap
  | 0, _ => []
  | fuel + 1, q =>
    match q.tryPop with
    | (none, _) => []
    | (some h, q') => h :: TSQueue.drainFuel fuel q'

/-- The state shared between the writer's background thread and its owner:
the queue (`queue_`), the lines already written to the sink (each line
recorded as the snapshot it serialises), and the `running_` flag. -/
structure WState where
  queue : TSQueue
  sink : List Snap
  running : Bool
deriving DecidableEq, Repr

/-- One execution of the body of the loop in `MetricsWriter::run`:
`waitAndPop` into `metrics` (empty vector when no element was delivered);
if `metrics` is empty and `tryPop` succeeds, `continue` (the element
popped by `tryPop` is overwritten on the next iteration — discarded);
if `metrics` is non-empty, serialise it as one line and flush.  `none`
means the body blocked inside `waitAndPop`. -/
def runBody (s : WState) : Option WState :=
  match s.queue.waitAndPop with
  | none => none
  | some (r, q1) =>
    let metrics := r.getD []
    if metrics.isEmpty then
      match q1.tryPop with
      | (some _, q2) => some { s with queue := q2 }
      | (none, q1') => some { s with queue := q1' }
    else some { s with queue := q1, sink := s.sink ++ [metrics] }

/-- The `while (running_)` loop of `MetricsWriter::run`, indexed by fuel:
`some f` means the loop exited (the thread reached `file.close()` and
returned) leaving state `f`; `none` means the loop had not exited within
`fuel` iterations or was blocked in `waitAndPop`. -/
def runLoop : Nat → WState → Option WState
  | 0, _ => none
  | fuel + 1, s =>
    if s.running then (runBody s).bind (runLoop fuel) else some s

/-- The writes the destructor `MetricsWriter::~MetricsWriter` performs
before joining the thread: `running_ = false; queue_.stop()`. -/
def dtorSignal (s : WState) : WState :=
  { s with queue := s.queue.stop, running := false }

/-- `MetricsWriter::write`: enqueue the snapshot. -/
def MetricsWriter.write (s : WState) (metrics : Snap) : WState :=
  { s with queue := s.queue.push metrics }

/-- `MetricsWriter::MetricsWriter(filename)`: stores the filename, sets
`running_` to true and starts the thread.  No branch of the constructor
body can fail, whether or not the sink is openable, so the result is
always `Except.ok` of the initial shared state. -/
def MetricsWriter.construct (filename : String) (sinkOk : Bool) :
    Except String WState :=
  Except.ok ⟨⟨[], false⟩, [], true⟩

/-- The body of `MetricsWriter::run` as executed on the background
thread: open the sink; when that fails, `throw std::runtime_error`
escapes the thread function (modelled as `Except.error`); otherwise run
the loop. -/
def MetricsWriter.runThread (filename : String) (sinkOk : Bool)
    (fuel : Nat) (s : WState) : Except String (Option WState) :=
  if sinkOk = false then Except.error ("Error opening file: " ++ filename)
  else Except.ok (runLoop fuel s)

/-- A registered metric: the closed set of `Metric` subclasses. -/
inductive Metric where
  | gauge (g : Gauge)
  | counter (c : Counter)
deriving DecidableEq, Repr

/-- Dispatch of the virtual `getName`. -/
def Metric.getName : Metric → String
  | .gauge g => g.getName
  | .counter c => c.getName

/-- Dispatch of the virtual `getValueAsString`. -/
def Metric.getValueAsString : Metric → String
  | .gauge g => g.getValueAsString
  | .counter c => c.getValueAsString

/-- Dispatch of the virtual `reset`. -/
def Metric.reset : Metric → Metric
  | .gauge g => .gauge g.reset
  | .counter c => .counter c.reset

/-- The zero-identity rendering of each metric kind. -/
def Metric.zeroStr : Metric → String
  | .gauge _ => "0.00"
  | .counter _ => "0"

/-- `MetricsCollector` state: the registered metrics (`metrics_`, in
registration order) and the owned writer's shared state. -/
structure MetricsCollector where
  metrics_ : List Metric
  writer_ : WState
deriving DecidableEq, Repr

/-- `MetricsCollector::addMetric`: appends to the registered list. -/
def MetricsCollector.addMetric (mc : MetricsCollector) (m : Metric) :
    MetricsCollector :=
  { mc with metrics_ := mc.metrics_ ++ [m] }

/-- The single pass of `MetricsCollector::collectAndWrite` over the
registered list: for each metric, in order, record `(getName,
getValueAsString)` into the snapshot and reset the metric. -/
def collectLoop : List Metric → Snap × List Metric
  | [] => ([], [])
  | m :: rest =>
    let (snap, ms) := collectLoop rest
    ((m.getName, m.getValueAsString) :: snap, m.reset :: ms)

/-- `MetricsCollector::collectAndWrite`: build the snapshot and reset the
metrics in one locked pass, then hand the snapshot to the writer. -/
def MetricsCollector.collectAndWrite (mc : MetricsCollector) :
    MetricsCollector :=
  let (snapshot, ms) := collectLoop mc.metrics_
  { metrics_ := ms, writer_ := MetricsWriter.write mc.writer_ snapshot }

/-- Fold a list of `update` calls over a gauge. -/
def Gauge.applyUpdates (g : Gauge) (vs : List ℚ) : Gauge :=
  vs.foldl Gauge.update g

/-- Fold a list of `increment` calls over a counter. -/
def Counter.applyIncrements (c : Counter) (ds : List Int) : Counter :=
  ds.foldl (fun a d => a.increment d) c

theorem fmt2_zero : fmt2 0 = "0.00" := by
  have h : round ((0 : ℚ) * 100) = 0 := by norm_num
  rw [fmt2, h]
  decide

theorem TSQueue.pushAll_items (q : TSQueue) (L : List Snap) :
    (q.pushAll L).items = q.items ++ L ∧ (q.pushAll L).stopped = q.stopped := by
  induction L generalizing q with
  | nil => simp [TSQueue.pushAll]
  | cons x t ih =>
    have h := ih (q.push x)
    simp only [TSQueue.pushAll, List.foldl_cons] at h ⊢
    refine ⟨?_, ?_⟩
    · rw [h.1]; simp [TSQueue.push]
    · rw [h.2]; simp [TSQueue.push]

theorem TSQueue.drainFuel_all (L : List Snap) (st : Bool) :
    TSQueue.drainFuel L.length ⟨L, st⟩ = L := by
  induction L with
  | nil => rfl
  | cons x t ih => simpa [TSQueue.drainFuel, TSQueue.tryPop] using ih

theorem TSQueue.drainFuel_stop (n : Nat) (q : TSQueue) :
    TSQueue.drainFuel n q.stop = TSQueue.drainFuel n q := by
  induction n generalizing q with
  | zero => rfl
  | succ n ih =>
    obtain ⟨items, st⟩ := q
    cases items with
    | nil => rfl
    | cons x t =>
      have h := ih ⟨t, st⟩
      simpa [TSQueue.drainFuel, TSQueue.tryPop, TSQueue.stop] using h

theorem collectLoop_spec (ms : List Metric) :
    collectLoop ms =
      (ms.map fun m => (m.getName, m.getValueAsString), ms.map Metric.reset) := by
  induction ms with
  | nil => rfl
  | cons m rest ih => simp [collectLoop, ih]

theorem Metric.reset_reads_zero (m : Metric) :
    m.reset.getValueAsString = m.reset.zeroStr := by
  cases m with
  | gauge g =>
    show fmt2 0 = "0.00"
    exact fmt2_zero
  | counter c => rfl

theorem wrap32_eq_self (n : Int) (h : inInt32 n) : wrap32 n = n := by
  unfold wrap32
  have h1 : 0 ≤ n + 2147483648 := by omega
  have h2 : n + 2147483648 < 4294967296 := by omega
  rw [Int.emod_eq_of_lt h1 h2]
  omega

theorem Counter.applyIncrements_value_of_inRange (c : Counter) (ds : List Int)
    (h : ∀ i, i ≤ ds.length → inInt32 (c.value_ + (ds.take i).sum)) :
    (c.applyIncrements ds).value_ = c.value_ + ds.sum := by
  induction ds generalizing c with
  | nil => simp [Counter.applyIncrements]
  | cons d t ih =>
    have hd : inInt32 (c.value_ + d) := by
      have h1 := h 1 (by simp)
      simpa using h1
    have hstep : (c.increment d).value_ = c.value_ + d := by
      simp [Counter.increment, wrap32_eq_self _ hd]
    have ht : ∀ i, i ≤ t.length → inInt32 ((c.increment d).value_ + (t.take i).sum) := by
      intro i hi
      have hi1 := h (i + 1) (by simpa using Nat.succ_le_succ hi)
      rw [hstep]
      simpa [List.take_succ_cons, add_assoc] using hi1
    have hrec := ih (c.increment d) ht
    simp only [Counter.applyIncrements, List.foldl_cons] at hrec ⊢
    rw [hrec, hstep]
    simp [add_assoc]

/-- Claim C1 (code evaluated at the failing schedule): two snapshots are
enqueued before shutdown is initiated; the destructor's signalling
(`running_ = false; queue_.stop()`) completes while the writer thread is
between iterations; the thread's loop then exits immediately because the
`while (running_)` test fails, with both snapshots still pending and the
sink empty, so the claimed no-data-loss-on-clean-shutdown guarantee does
not hold. -/
theorem shutdown_loses_pending_snapshots :
    runLoop 10 (dtorSignal
      ⟨⟨[[("cpu", "0.50")], [("rps", "42")]], false⟩, [], true⟩) =
      some ⟨⟨[[("cpu", "0.50")], [("rps", "42")]], true⟩, [], false⟩ ∧
    ([[("cpu", "0.50")], [("rps", "42")]] : List Snap) ≠ [] := by
  exact ⟨rfl, by simp⟩

/-- Claim C2 (code evaluated at the failing state): the background loop
exits as soon as the `running` flag is false at the `while (running_)`
test, even though the queue is stopped but still holds a pending
snapshot; it does not re-check the stopped-and-empty condition, so the
loop does not exit "only when the queue is both stopped and empty". -/
theorem loop_exits_on_running_flag_with_pending :
    runLoop 1 ⟨⟨[[("m", "1")]], true⟩, [], false⟩ =
      some ⟨⟨[[("m", "1")]], true⟩, [], false⟩ ∧
    (WState.mk ⟨[[("m", "1")]], true⟩ [] false).queue.items ≠ [] := by
  exact ⟨rfl, by simp⟩

/-- Claim C3: when `waitAndPop` delivers an empty snapshot (the head of
the queue is an empty vector, as `collectAndWrite` produces with no
registered metrics) and another snapshot `s` is pending behind it, the
loop body pops `s` with `tryPop` and hits `continue`: `s` is removed from
the queue and no line is written to the sink for it (the sink is
unchanged by the whole iteration). -/
theorem run_discards_snapshot_after_empty (s : Snap) (rest : List Snap)
    (stp : Bool) (sink : List Snap) (r : Bool) :
    runBody ⟨⟨[] :: s :: rest, stp⟩, sink, r⟩ = some ⟨⟨rest, stp⟩, sink, r⟩ := by
  simp [runBody, TSQueue.waitAndPop, TSQueue.tryPop]

/-- Claim C4: `waitAndPop` fails to return precisely when the queue is
empty and not stopped (the condition-variable predicate stays false);
when it returns, it delivers no snapshot exactly when the queue was
stopped and empty (leaving the queue untouched), and otherwise removes
and returns the head element, preserving the stopped flag. -/
theorem waitAndPop_spec (q : TSQueue) :
    (q.waitAndPop = none ↔ (q.items = [] ∧ q.stopped = false)) ∧
    (∀ res q', q.waitAndPop = some (res, q') →
      ((res = none ↔ (q.stopped = true ∧ q.items = [])) ∧
       (res = none → q' = q) ∧
       (∀ x t, q.items = x :: t → res = some x ∧ q' = ⟨t, q.stopped⟩))) := by
  obtain ⟨items, st⟩ := q
  cases items with
  | nil =>
    cases st <;> simp [TSQueue.waitAndPop]
  | cons x t =>
    cases st <;> simp [TSQueue.waitAndPop]

/-- Closed instance of `waitAndPop_spec` at a stopped empty queue: the
call returns with no snapshot delivered. -/
theorem waitAndPop_spec_witness :
    (none : Option Snap) = none ↔ ((true : Bool) = true ∧ ([] : List Snap) = []) :=
  ((waitAndPop_spec ⟨[], true⟩).2 none ⟨[], true⟩ rfl).1

/-- Claim C5: the queue is an exact FIFO: pushing the snapshots of `L` in
order onto an empty queue and then popping repeatedly returns exactly
`L` — same elements, same multiplicity, same order — and on a non-empty
queue `waitAndPop` returns precisely what `tryPop` would, so blocking and
non-blocking consumption agree on delivered elements. -/
theorem queue_fifo_exact (L : List Snap) (st : Bool) :
    TSQueue.drainFuel L.length (TSQueue.pushAll ⟨[], st⟩ L) = L ∧
    (∀ (x : Snap) (t : List Snap) (st2 : Bool),
      (TSQueue.mk (x :: t) st2).waitAndPop = some ((TSQueue.mk (x :: t) st2).tryPop)) := by
  constructor
  · have h := TSQueue.pushAll_items ⟨[], st⟩ L
    have hq : TSQueue.pushAll ⟨[], st⟩ L = ⟨L, st⟩ := by
      obtain ⟨h1, h2⟩ := h
      cases hpq : TSQueue.pushAll ⟨[], st⟩ L
      simp_all
    rw [hq]
    exact TSQueue.drainFuel_all L st
  · intro x t st2
    simp [TSQueue.waitAndPop, TSQueue.tryPop]

/-- Claim C6: `collectAndWrite` hands the writer one snapshot listing, in
registration order, every registered metric's name paired with its
pre-reset rendered value, replaces the registered metrics by their reset
versions, and afterwards every registered metric reads back as its zero
rendering ("0.00" for a Gauge, "0" for a Counter). -/
theorem collectAndWrite_spec (mc : MetricsCollector) :
    mc.collectAndWrite.writer_ =
      MetricsWriter.write mc.writer_
        (mc.metrics_.map fun m => (m.getName, m.getValueAsString)) ∧
    mc.collectAndWrite.metrics_ = mc.metrics_.map Metric.reset ∧
    ∀ m ∈ mc.collectAndWrite.metrics_, m.getValueAsString = m.zeroStr := by
  refine ⟨?_, ?_, ?_⟩
  · simp [MetricsCollector.collectAndWrite, collectLoop_spec]
  · simp [MetricsCollector.collectAndWrite, collectLoop_spec]
  · intro m hm
    simp only [MetricsCollector.collectAndWrite, collectLoop_spec] at hm
    obtain ⟨m0, hm0, rfl⟩ := List.mem_map.1 hm
    exact Metric.reset_reads_zero m0

/-- Closed instance of `collectAndWrite_spec`: after collecting from a
collector holding one gauge and one counter, the (reset) gauge reads back
"0.00". -/
theorem collectAndWrite_spec_witness :
    Metric.getValueAsString (.gauge ⟨"g", 0⟩) = Metric.zeroStr (.gauge ⟨"g", 0⟩) :=
  (collectAndWrite_spec
      ⟨[.gauge ⟨"g", 0⟩, .counter ⟨"c", 7⟩], ⟨⟨[], false⟩, [], true⟩⟩).2.2
    (.gauge ⟨"g", 0⟩)
    (by simp [MetricsCollector.collectAndWrite, collectLoop, Metric.reset, Gauge.reset])

/-- Claim C7, counterexample: with a sink that cannot be opened, the
`MetricsWriter` constructor still returns normally — no error reaches the
constructing caller — so the open failure is not a construction-time
error surfaced to that caller. -/
theorem construct_swallows_bad_sink :
    MetricsWriter.construct "metrics.log" false =
      Except.ok ⟨⟨[], false⟩, [], true⟩ ∧
    ¬ ∃ e, MetricsWriter.construct "metrics.log" false = Except.error e := by
  refine ⟨rfl, ?_⟩
  rintro ⟨e, he⟩
  simp [MetricsWriter.construct] at he

/-- Claim C7, amended: construction always succeeds regardless of sink
openability; a non-openable sink instead makes the background thread's
routine raise the fatal "Error opening file" error before it processes
any snapshot. -/
theorem bad_sink_error_raised_on_writer_thread (fn : String) (ok : Bool)
    (fuel : Nat) (s : WState) :
    MetricsWriter.construct fn ok = Except.ok ⟨⟨[], false⟩, [], true⟩ ∧
    MetricsWriter.runThread fn false fuel s =
      Except.error ("Error opening file: " ++ fn) := by
  exact ⟨rfl, rfl⟩

/-- Claim C8: for every sequence of `update` calls on a Gauge,
`getValueAsString` after the last call renders the last written value in
fixed-point with exactly two fractional digits, and after `reset` it
renders "0.00". -/
theorem gauge_last_write_wins (g : Gauge) (vs : List ℚ) (v : ℚ) :
    (g.applyUpdates (vs ++ [v])).getValueAsString = fmt2 v ∧
    (g.applyUpdates (vs ++ [v])).reset.getValueAsString = "0.00" := by
  constructor
  · simp [Gauge.applyUpdates, List.foldl_append, Gauge.update,
      Gauge.getValueAsString]
  · simpa [Gauge.reset, Gauge.getValueAsString] using fmt2_zero

/-- Claim C9, counterexample: four increments of 2^30 — every delta a
valid `int` — overflow the 32-bit accumulator; the counter renders "0",
not the integer sum 4294967296 of the deltas, so the unrestricted
render-the-sum claim fails on the `int`-typed accumulator. -/
theorem counter_overflow_drops_sum :
    ((Counter.mkNamed "c").applyIncrements
        [1073741824, 1073741824, 1073741824, 1073741824]).getValueAsString = "0" ∧
    toString ([1073741824, 1073741824, 1073741824, 1073741824] : List Int).sum =
      "4294967296" ∧
    ((Counter.mkNamed "c").applyIncrements
        [1073741824, 1073741824, 1073741824, 1073741824]).getValueAsString ≠
      toString ([1073741824, 1073741824, 1073741824, 1073741824] : List Int).sum := by
  refine ⟨?_, ?_, ?_⟩ <;> decide

/-- Claim C9, amended: for every sequence of `increment(d)` calls on a
Counter (deltas any integers, negative or zero included; the omitted
delta defaults to 1) whose running totals all stay within the 32-bit
`int` range, `getValueAsString` renders the integer sum of all deltas
since the zero state, and after `reset` it renders "0". -/
theorem counter_sums_deltas_within_range (nm : String) (ds : List Int)
    (c : Counter) (h : ∀ i, i ≤ ds.length → inInt32 ((ds.take i).sum)) :
    ((Counter.mkNamed nm).applyIncrements ds).getValueAsString =
      toString ds.sum ∧
    c.reset.getValueAsString = "0" ∧
    c.increment = c.increment 1 := by
  refine ⟨?_, rfl, rfl⟩
  rw [Counter.getValueAsString,
    Counter.applyIncrements_value_of_inRange _ _
      (by simpa [Counter.mkNamed] using h)]
  simp [Counter.mkNamed]

/-- Closed instance of `counter_sums_deltas_within_range` on the deltas
`[5, -3]`, whose running totals stay inside the `int` range. -/
theorem counter_sums_deltas_within_range_witness :
    ((Counter.mkNamed "c").applyIncrements [5, -3]).getValueAsString =
      toString ([5, -3] : List Int).sum ∧
    (Counter.mk "x" 9).reset.getValueAsString = "0" ∧
    (Counter.mk "x" 9).increment = (Counter.mk "x" 9).increment 1 :=
  counter_sums_deltas_within_range "c" [5, -3] ⟨"x", 9⟩ (by decide)

/-- Claim C10: `stop` only sets the stopped flag: the pending sequence is
untouched, a second `stop` leaves the state identical to the first, and
every snapshot pending before `stop` is still popped afterwards, in the
same order, by repeated `tryPop`. -/
theorem stop_frame_spec (q : TSQueue) :
    q.stop = ⟨q.items, true⟩ ∧
    q.stop.stop = q.stop ∧
    ∀ n, TSQueue.drainFuel n q.stop = TSQueue.drainFuel n q := by
  exact ⟨rfl, rfl, fun n => TSQueue.drainFuel_stop n q⟩
